import Mathlib

/-!
Verification of the memcache binary-protocol client (dev-lazarev/memcache).

The Go sources are shallowly embedded: byte strings become `List Nat`
(each element a byte value), machine integers become `Nat` with explicit
truncation `% 2 ^ w` where the Go code casts, connections and the
external pool become explicit oracles (`ConnWorld`, `ShardWorld`,
`FlushShard`) recording the outcome of each acquire / write, and an
incoming byte stream is a `List Nat` consumed by the response parser.
-/

namespace Memcache

/-- Error values of the client.  The Go code uses shared sentinel error
objects (`ErrCacheMiss`, `ErrCASConflict`, ...) and compares them by
identity; here they are a closed set of tags.  `respErr s` stands for the
`response(status)` value itself, returned by `response.asError` for any
status it does not map to a sentinel. -/
inductive MCError where
  | cacheMiss
  | casConflict
  | notStored
  | badIncrDec
  | malformedKey
  | noServers
  | badMagic
  | ioError
  | respErr (status : Nat)
deriving DecidableEq, Repr

/-- What finally happened to a connection acquired from the pool for one
operation: returned via `PutConnection`, force-closed via
`CloseConnection`, never acquired at all, or neither returned nor closed
(the operation finished while still holding it). -/
inductive ConnFate where
  | notAcquired
  | returned
  | closed
  | leaked
deriving DecidableEq, Repr

/-- The connection-lifecycle switch appearing verbatim in `Get`,
`GetMulti`, `populateOne`, `Delete`, `incrDecr` and `Flush`:
`case nil, ErrCacheMiss, ErrCASConflict, ErrNotStored, ErrBadIncrDec:
PutConnection; default: CloseConnection`. -/
def lifecycle : Option MCError → ConnFate
  | none => .returned
  | some .cacheMiss => .returned
  | some .casConflict => .returned
  | some .notStored => .returned
  | some .badIncrDec => .returned
  | some _ => .closed

/-- Big-endian byte encoding of `x` into `n` bytes, the semantics of
`binary.BigEndian.PutUint16/32/64` (a Go cast `uintN(x)` truncates, which
the iterated `/ 256` with final `% 256` reproduces). -/
def beBytes : Nat → Nat → List Nat
  | 0, _ => []
  | n + 1, x => beBytes n (x / 256) ++ [x % 256]

/-- Big-endian value of a byte list, the semantics of
`binary.BigEndian.Uint16/32/64`. -/
def beVal (l : List Nat) : Nat :=
  l.foldl (fun acc b => acc * 256 + b) 0

/-- `binary.BigEndian.Uint16`: reads the first two bytes of the slice. -/
def bUint16 (l : List Nat) : Nat := beVal (l.take 2)

/-- `binary.BigEndian.Uint32`: reads the first four bytes of the slice. -/
def bUint32 (l : List Nat) : Nat := beVal (l.take 4)

/-- `binary.BigEndian.Uint64`: reads the first eight bytes of the slice. -/
def bUint64 (l : List Nat) : Nat := beVal (l.take 8)

theorem beBytes_length (n x : Nat) : (beBytes n x).length = n := by
  induction n generalizing x with
  | zero => rfl
  | succ n ih => simp [beBytes, ih]

theorem beVal_append_singleton (l : List Nat) (b : Nat) :
    beVal (l ++ [b]) = beVal l * 256 + b := by
  simp [beVal, List.foldl_append]

theorem beVal_beBytes (n x : Nat) (h : x < 256 ^ n) : beVal (beBytes n x) = x := by
  induction n generalizing x with
  | zero =>
    have : x = 0 := by simpa using h
    simp [this, beBytes, beVal]
  | succ n ih =>
    have hx : x / 256 < 256 ^ n := by
      rw [Nat.div_lt_iff_lt_mul (by norm_num)]
      calc x < 256 ^ (n + 1) := h
        _ = 256 ^ n * 256 := by rw [pow_succ]
    rw [beBytes, beVal_append_singleton, ih _ hx]
    omega

theorem take_beBytes_append (n x : Nat) (r : List Nat) :
    (beBytes n x ++ r).take n = beBytes n x :=
  List.take_left' (beBytes_length n x)

theorem drop_beBytes_append (n x : Nat) (r : List Nat) :
    (beBytes n x ++ r).drop n = r :=
  List.drop_left' (beBytes_length n x)

/-- Request magic byte (`reqMagic` in the source). -/
def reqMagic : Nat := 0x80

/-- Response magic byte (`respMagic` in the source). -/
def respMagic : Nat := 0x81

/-- `response.asError` from `server_conn.go`: maps a response status code
to a sentinel error, falling through to the status value itself.  The
status constants are `respKeyNotFound = 1`, `respKeyExists = 2`,
`respItemNotStored = 5`, `respInvalidIncrDecr = 6`. -/
def asError (status : Nat) : MCError :=
  if status = 1 then .cacheMiss
  else if status = 2 then .notStored
  else if status = 6 then .badIncrDec
  else if status = 5 then .notStored
  else .respErr status

/-- `legalKey` from the client: at most 250 bytes, and no byte that is
`<= ' '` (0x20) or `> 0x7e`. -/
def legalKey (key : List Nat) : Bool :=
  if key.length > 250 then false
  else key.all fun c => !(decide (c ≤ 0x20) || decide (0x7e < c))

/-- The 24-byte request header built by `sendConnCommand`:
magic, opcode, key length (2 bytes BE), extras length, data type 0,
vbucket 0 (2 bytes), total body length (4 bytes BE), opaque 0 (4 bytes),
cas (8 bytes BE). -/
def reqHeader (key : List Nat) (cmd : Nat) (value : List Nat) (casid : Nat)
    (extras : List Nat) : List Nat :=
  [reqMagic, cmd % 256]
    ++ beBytes 2 key.length
    ++ [extras.length % 256, 0, 0, 0]
    ++ beBytes 4 (key.length + extras.length + value.length)
    ++ [0, 0, 0, 0]
    ++ beBytes 8 casid

/-- The full byte stream written by `sendConnCommand`: the 24-byte header
buffer with extras and key appended, then the value (written by a second
`Write`, so on the wire it directly follows). -/
def sendConnCommand (key : List Nat) (cmd : Nat) (value : List Nat) (casid : Nat)
    (extras : List Nat) : List Nat :=
  reqHeader key cmd value casid extras ++ extras ++ key ++ value

theorem reqHeader_length (key : List Nat) (cmd : Nat) (value : List Nat)
    (casid : Nat) (extras : List Nat) :
    (reqHeader key cmd value casid extras).length = 24 := by
  simp [reqHeader, beBytes_length]

/-- Successful result of `parseResponse`: the raw 24-byte header and the
key, extras and value bodies. -/
structure ParseOk where
  hdr : List Nat
  key : List Nat
  extras : List Nat
  value : List Nat
deriving DecidableEq, Repr

/-- `parseResponse` from `server_conn.go`, over an explicit byte stream.
Returns the outcome together with the unconsumed remainder of the stream.
Modelled from the spec: the `readAtLeast` helper and `io.CopyN` are not
under `src/`; per the spec they are short-read-safe full reads that fail
with an I/O error on premature EOF (the remainder is then exhausted). -/
def parseResponse (rKey : List Nat) (s : List Nat) :
    Except MCError ParseOk × List Nat :=
  if s.length < 24 then (.error .ioError, [])
  else
    let hdr := s.take 24
    let rest := s.drop 24
    if hdr.headI ≠ respMagic then (.error .badMagic, rest)
    else
      let total := bUint32 (hdr.drop 8)
      let status := bUint16 (hdr.drop 6)
      if status ≠ 0 then
        if rest.length < total then (.error .ioError, [])
        else if status = 4 ∧ legalKey rKey = false then
          (.error .malformedKey, rest.drop total)
        else (.error (asError status), rest.drop total)
      else
        let el := hdr.getD 4 0
        if rest.length < el then (.error .ioError, [])
        else
          let extras := rest.take el
          let r2 := rest.drop el
          let kl := bUint16 (hdr.drop 2)
          if r2.length < kl then (.error .ioError, [])
          else
            let key := r2.take kl
            let r3 := r2.drop kl
            let vl := total - el - kl
            if r3.length < vl then (.error .ioError, [])
            else (.ok ⟨hdr, key, extras, r3.take vl⟩, r3.drop vl)

/-- One bit-step of the reflected CRC-32 computation (polynomial
0xEDB88320), as computed by Go's `hash/crc32` for the IEEE table. -/
def crc32Round (c : Nat) : Nat :=
  if c % 2 = 1 then Nat.xor (c / 2) 0xEDB88320 else c / 2

/-- Fold one byte into a CRC-32 accumulator: xor the byte into the low
eight bits, then eight reflected polynomial steps. -/
def crc32Byte (crc b : Nat) : Nat :=
  crc32Round (crc32Round (crc32Round (crc32Round
    (crc32Round (crc32Round (crc32Round (crc32Round (Nat.xor crc b))))))))

/-- `crc32.ChecksumIEEE`: initial value 0xFFFFFFFF, bytes folded in
order, final complement. -/
def ChecksumIEEE (data : List Nat) : Nat :=
  Nat.xor (data.foldl crc32Byte 0xFFFFFFFF) 0xFFFFFFFF

set_option maxRecDepth 100000 in
/-- Sanity check of the CRC-32 embedding against the canonical check
value of CRC-32/IEEE: the checksum of the ASCII string "123456789". -/
theorem checksumIEEE_check_value :
    ChecksumIEEE [0x31, 0x32, 0x33, 0x34, 0x35, 0x36, 0x37, 0x38, 0x39] = 0xCBF43926 := by
  decide

/-- `ServerList.PickServerIndex`: `ErrNoServers` when no pools are
configured, otherwise the IEEE CRC-32 of the key modulo the pool count.
`numServers` is `len(s.pool)`. -/
def PickServerIndex (numServers : Nat) (key : List Nat) : Except MCError Nat :=
  if numServers = 0 then .error .noServers
  else .ok (ChecksumIEEE key % numServers)

/-- The client's `Item`: key and value as byte strings, 32-bit flags,
32-bit expiration, and the unexported server-assigned `casid`. -/
structure Item where
  key : List Nat
  value : List Nat
  flags : Nat
  expiration : Nat
  casid : Nat
deriving DecidableEq, Repr

/-- Oracle for a single-connection operation: the outcome of
`GetConnection` (`some e` = the pool returned an error), the outcome of
the `sendConnCommand` writes, and the response byte stream the
connection delivers. -/
structure ConnWorld where
  acquire : Option MCError
  sendErr : Option MCError
  stream : List Nat
deriving DecidableEq, Repr

/-- `Client.populateOne`, shared by `Set`, `Add` and `CompareAndSwap`:
pick a shard, acquire a connection, send the command (a write failure
force-closes), parse the response (an error goes through the lifecycle
switch), and only on success return the connection and overwrite the
item's cas token from header bytes 16-23.  Returns the error (if any),
the caller's item as left after the call, and the connection's fate. -/
def populateOne (numServers : Nat) (w : ConnWorld) (cmd : Nat) (item : Item)
    (casid : Nat) : Option MCError × Item × ConnFate :=
  match PickServerIndex numServers item.key with
  | .error e => (some e, item, .notAcquired)
  | .ok _ =>
    match w.acquire with
    | some e => (some e, item, .notAcquired)
    | none =>
      match w.sendErr with
      | some e => (some e, item, .closed)
      | none =>
        match parseResponse item.key w.stream with
        | (.error e, _) => (some e, item, lifecycle (some e))
        | (.ok p, _) =>
          (none, { item with casid := bUint64 (p.hdr.drop 16) }, .returned)

/-- `Client.Set`: `populateOne` with opcode `cmdSet` (1) and cas 0. -/
def clientSet (numServers : Nat) (w : ConnWorld) (item : Item) :
    Option MCError × Item × ConnFate :=
  populateOne numServers w 1 item 0

/-- `Client.Add`: `populateOne` with opcode `cmdAdd` (2) and cas 0. -/
def clientAdd (numServers : Nat) (w : ConnWorld) (item : Item) :
    Option MCError × Item × ConnFate :=
  populateOne numServers w 2 item 0

/-- `Client.CompareAndSwap`: `populateOne` with opcode `cmdSet` (1) and
the item's stored cas token. -/
def clientCompareAndSwap (numServers : Nat) (w : ConnWorld) (item : Item) :
    Option MCError × Item × ConnFate :=
  populateOne numServers w 1 item item.casid

/-- Oracle for one `GetMulti` per-shard goroutine: the outcome of
`GetConnection`, the outcome of each successive `sendConnCommand` write
(indexed in call order; absent entries succeed), and the response byte
stream. -/
structure ShardWorld where
  acquire : Option MCError
  sendErrs : List (Option MCError)
  stream : List Nat

/-- The response-reading loop of the `GetMulti` goroutine: parse frames
until the first error or the first frame with an empty key (the `Noop`
echo), building an `Item` from each keyed frame (flags decoded from the
extras when non-empty, cas from header bytes 16-23).  The Go loop is
unbounded; each successful iteration consumes at least 24 bytes of the
finite stream, so fuel `s.length + 1` is never exhausted first. -/
def parseLoop : Nat → List Nat → List Item
  | 0, _ => []
  | fuel + 1, s =>
    match parseResponse [] s with
    | (.error _, _) => []
    | (.ok p, rest) =>
      if p.key = [] then []
      else
        { key := p.key, value := p.value,
          flags := if p.extras ≠ [] then bUint32 p.extras else 0,
          expiration := 0, casid := bUint64 (p.hdr.drop 16) }
          :: parseLoop fuel rest

/-- One `GetMulti` per-shard goroutine: abort silently (producing no
items) if the connection cannot be acquired; on the first failing write
of the `keys.length` quiet gets or the final `Noop` run the lifecycle
switch on that (non-nil) error and abort; otherwise stream the parsed
items — and finish while still holding the connection, which is neither
returned to the pool nor closed. -/
def getMultiTask (w : ShardWorld) (keys : List (List Nat)) :
    List Item × ConnFate :=
  match w.acquire with
  | some _ => ([], .notAcquired)
  | none =>
    match (List.range (keys.length + 1)).findSome? (fun i => w.sendErrs.getD i none) with
    | some e => ([], lifecycle (some e))
    | none => (parseLoop (w.stream.length + 1) w.stream, .leaked)

/-- `Client.GetMulti`: group the keys by `PickServerIndex` (failing with
`ErrNoServers` on the first key when no shard is configured), run one
task per shard that received at least one key, and merge every task's
items.  The Go map iteration order is unspecified; since each key is
grouped onto exactly one shard the merged contents are order-independent
and are modelled in shard-index order. -/
def clientGetMulti (numServers : Nat) (w : Nat → ShardWorld)
    (keys : List (List Nat)) : Except MCError (List Item) :=
  if keys ≠ [] ∧ numServers = 0 then .error .noServers
  else
    .ok ((List.range numServers).flatMap fun i =>
      let group := keys.filter fun k => ChecksumIEEE k % numServers = i
      if group.isEmpty then [] else (getMultiTask (w i) group).1)

/-- The `serversName` slice built by `NewServerList`: allocated with
`make([]string, len(configs))` (that many empty strings) and then each
configured address is `append`ed after them. -/
def buildServersNames (configs : List String) : List String :=
  configs.foldl (fun acc c => acc ++ [c]) (List.replicate configs.length "")

/-- Oracle for one shard during `Flush`: outcome of `GetConnection`, of
the `sendConnCommand` write, and the response stream. -/
structure FlushShard where
  acquire : Option MCError
  sendErr : Option MCError
  stream : List Nat

/-- One iteration of `Client.Flush` for a single shard: an acquire
failure is recorded and skipped (`continue`); otherwise the flush
command is sent, the response parsed if the write succeeded, any error
recorded, and the lifecycle switch applied to the connection. -/
def flushOne (w : FlushShard) : Option MCError × ConnFate :=
  match w.acquire with
  | some e => (some e, .notAcquired)
  | none =>
    let err : Option MCError :=
      match w.sendErr with
      | some e => some e
      | none =>
        match (parseResponse [] w.stream).1 with
        | .error e => some e
        | .ok _ => none
    (err, lifecycle err)

/-- `Client.Flush`: iterate shard indices `0 ..< PoolLen` sequentially,
collecting for each failed shard the pair `(Name(index), error)`; return
`some` of that failure list when non-empty (the combined error message
is built from exactly these name/error pairs), `none` otherwise.  Also
returns every shard's connection fate, in index order. -/
def clientFlush (configs : List String) (shards : List FlushShard) :
    Option (List (String × MCError)) × List ConnFate :=
  let names := buildServersNames configs
  let results := (List.range configs.length).map
    fun i => (i, flushOne (shards.getD i ⟨none, none, []⟩))
  let fails := results.filterMap fun r => r.2.1.map fun e => (names.getD r.1 "", e)
  (if fails.isEmpty then none else some fails, results.map fun r => r.2.2)

/-- Decode a byte stream with `parseResponse` and, on success, re-encode
the decoded key, opcode (header byte 1), value, cas (header bytes 16-23)
and extras with `sendConnCommand`. -/
def decodeThenEncode (rKey : List Nat) (s : List Nat) : Except MCError (List Nat) :=
  match (parseResponse rKey s).1 with
  | .error e => .error e
  | .ok p => .ok (sendConnCommand p.key (p.hdr.getD 1 0) p.value
      (bUint64 (p.hdr.drop 16)) p.extras)

end Memcache

deriving instance DecidableEq for Except

set_option maxRecDepth 400000

namespace Memcache

theorem headI_take24 (s : List Nat) : (s.take 24).headI = s.headI := by
  cases s <;> simp

theorem bUint16_beBytes (x : Nat) (r : List Nat) (h : x < 2 ^ 16) :
    bUint16 (beBytes 2 x ++ r) = x := by
  rw [bUint16, take_beBytes_append]
  exact beVal_beBytes 2 x (by norm_num; omega)

theorem bUint32_beBytes (x : Nat) (r : List Nat) (h : x < 2 ^ 32) :
    bUint32 (beBytes 4 x ++ r) = x := by
  rw [bUint32, take_beBytes_append]
  exact beVal_beBytes 4 x (by norm_num; omega)

theorem bUint64_beBytes (x : Nat) (r : List Nat) (h : x < 2 ^ 64) :
    bUint64 (beBytes 8 x ++ r) = x := by
  rw [bUint64, take_beBytes_append]
  exact beVal_beBytes 8 x (by norm_num; omega)

/-- C8: the Key Validator accepts exactly the keys of length at most 250
bytes whose every byte is strictly greater than 0x20 and at most 0x7e;
any key with a byte ≤ 0x20 or > 0x7e, or longer than 250 bytes, is
rejected. -/
theorem legalKey_characterization (key : List Nat) :
    legalKey key = true ↔ key.length ≤ 250 ∧ ∀ c ∈ key, 0x20 < c ∧ c ≤ 0x7e := by
  constructor
  · intro hl
    unfold legalKey at hl
    by_cases h : key.length > 250
    · rw [if_pos h] at hl
      cases hl
    · rw [if_neg h] at hl
      refine ⟨by omega, ?_⟩
      intro c hc
      have hx := List.all_eq_true.mp hl c hc
      simp only [Bool.not_eq_true', Bool.or_eq_false_iff, decide_eq_false_iff_not] at hx
      omega
  · rintro ⟨h1, h2⟩
    unfold legalKey
    rw [if_neg (by omega)]
    apply List.all_eq_true.mpr
    intro c hc
    have hx := h2 c hc
    simp only [Bool.not_eq_true', Bool.or_eq_false_iff, decide_eq_false_iff_not]
    omega

/-- C5: shard selection fails with the NoServers error exactly when zero
shards are configured, and otherwise deterministically returns the IEEE
CRC-32 of the raw key bytes modulo the number of configured shards. -/
theorem pickServerIndex_spec :
    (∀ key : List Nat, PickServerIndex 0 key = .error .noServers) ∧
    (∀ (numServers : Nat) (key : List Nat), 0 < numServers →
      PickServerIndex numServers key = .ok (ChecksumIEEE key % numServers)) := by
  constructor
  · intro key; rfl
  · intro n key h
    unfold PickServerIndex
    rw [if_neg (by omega)]

/-- Witness for C5 at three shards and the key "a" (byte 97): the CRC-32
of "a" is 0xE8B7BE43 and its residue modulo 3 is 0. -/
theorem pickServerIndex_spec_witness : PickServerIndex 3 [97] = .ok 0 := by
  have h := pickServerIndex_spec.2 3 [97] (by decide)
  rw [h]
  decide

/-- C2 (code bug): a stale cas token makes the server answer status
KeyExists (2), but `response.asError` maps status 2 to the NotStored
sentinel, so `CompareAndSwap` returns NotStored — never the CASConflict
error its own documentation promises. -/
theorem compareAndSwap_stale_returns_notStored :
    (clientCompareAndSwap 1
        ⟨none, none, 0x81 :: 0 :: 0 :: 0 :: 0 :: 0 :: 0 :: 2 :: List.replicate 16 0⟩
        ⟨[97], [98], 0, 0, 5⟩).1 = some .notStored ∧
    asError 2 = .notStored ∧
    MCError.notStored ≠ MCError.casConflict := by
  decide

/-- C1 (code bug): the `GetMulti` per-shard goroutine, after successfully
acquiring a connection and sending every pipelined request, finishes its
response loop without ever calling `PutConnection` or `CloseConnection`:
the acquired connection is neither returned to the pool nor force-closed. -/
theorem getMultiTask_leaks_connection :
    getMultiTask ⟨none, [], []⟩ [[97]] = ([], .leaked) ∧
    ConnFate.leaked ≠ ConnFate.returned ∧
    ConnFate.leaked ≠ ConnFate.closed := by
  decide

/-- C6 (code bug): `Flush` over three shards of which the second is
unreachable does attempt every shard, but the combined failure report
names the failed shard as the empty string, not as its configured address
"b:2", because `NewServerList` appends the names after
`make([]string, len(configs))` so indices `0 ..< n` all hold `""`. -/
theorem flush_reports_empty_shard_names :
    clientFlush ["a:1", "b:2", "c:3"]
        [⟨none, none, 0x81 :: List.replicate 23 0⟩,
         ⟨some .ioError, none, []⟩,
         ⟨none, none, 0x81 :: List.replicate 23 0⟩]
      = (some [("", .ioError)], [.returned, .notAcquired, .returned]) ∧
    buildServersNames ["a:1", "b:2", "c:3"] = ["", "", "", "a:1", "b:2", "c:3"] ∧
    ("" : String) ≠ "b:2" := by
  decide

/-- C10: whenever `populateOne` (the shared executor of Set, Add and
CompareAndSwap) reports an error — shard selection, connection, write or
response — the caller's item is returned entirely unchanged, its cas
token included; only on success is the item's cas token overwritten, and
then exactly with bytes 16-23 of the parsed response header. -/
theorem populateOne_frame_condition (numServers : Nat) (w : ConnWorld) (cmd : Nat)
    (item : Item) (casid : Nat) :
    ((populateOne numServers w cmd item casid).1 ≠ none →
      (populateOne numServers w cmd item casid).2.1 = item) ∧
    ((populateOne numServers w cmd item casid).1 = none →
      ∃ p rest, parseResponse item.key w.stream = (.ok p, rest) ∧
        (populateOne numServers w cmd item casid).2.1
          = { item with casid := bUint64 (p.hdr.drop 16) }) := by
  unfold populateOne
  cases PickServerIndex numServers item.key with
  | error e => exact ⟨fun _ => rfl, fun h => by cases h⟩
  | ok i =>
    cases w.acquire with
    | some e => exact ⟨fun _ => rfl, fun h => by cases h⟩
    | none =>
      cases w.sendErr with
      | some e => exact ⟨fun _ => rfl, fun h => by cases h⟩
      | none =>
        rcases hp : parseResponse item.key w.stream with ⟨res, rest⟩
        cases res with
        | error e =>
          exact ⟨fun _ => rfl, fun h => by cases h⟩
        | ok p =>
          exact ⟨fun h => absurd rfl h, fun _ => ⟨p, rest, rfl, rfl⟩⟩

/-- Witness for C10: with zero shards configured the call errors with
NoServers and the item comes back unchanged. -/
theorem populateOne_frame_condition_witness :
    (populateOne 0 ⟨none, none, []⟩ 1 ⟨[97], [], 0, 0, 7⟩ 0).2.1 = ⟨[97], [], 0, 0, 7⟩ :=
  (populateOne_frame_condition 0 ⟨none, none, []⟩ 1 ⟨[97], [], 0, 0, 7⟩ 0).1 (by decide)

/-- C7: with at least one configured shard, `GetMulti` always returns a
nil overall error: the result is `ok` of the merge, over all shards, of
whatever items each per-shard task produced — a task that fails to
acquire a connection or to send a pipelined request contributes only the
items it had already parsed (none), and the other shards' partial results
are still merged. -/
theorem getMulti_swallows_shard_failures (numServers : Nat) (w : Nat → ShardWorld)
    (keys : List (List Nat)) (h : 0 < numServers) :
    clientGetMulti numServers w keys =
      .ok ((List.range numServers).flatMap fun i =>
        let group := keys.filter fun k => ChecksumIEEE k % numServers = i
        if group.isEmpty then [] else (getMultiTask (w i) group).1) := by
  unfold clientGetMulti
  rw [if_neg (by rintro ⟨-, h0⟩; omega)]

/-- Witness for C7: one shard whose task cannot even acquire a
connection; the batch get still reports success, with an empty result. -/
theorem getMulti_swallows_shard_failures_witness :
    clientGetMulti 1 (fun _ => ⟨some .ioError, [], []⟩) [[97]] = .ok [] := by
  have h := getMulti_swallows_shard_failures 1 (fun _ => ⟨some .ioError, [], []⟩) [[97]]
    (by decide)
  rw [h]
  decide

/-- C3: response decoding fails with the BadMagic protocol error when the
first header byte is not 0x81; and on a non-OK status it drains exactly
total-body-length bytes from the stream and then maps the status to a
semantic error, with status InvalidArgs (4) plus a key rejected by the
validator reported as MalformedKey instead of the generic mapping. -/
theorem parseResponse_error_mapping :
    (∀ (rKey s : List Nat), 24 ≤ s.length → s.headI ≠ 0x81 →
        parseResponse rKey s = (.error .badMagic, s.drop 24)) ∧
    (∀ (rKey s : List Nat), 24 ≤ s.length → s.headI = 0x81 →
        bUint16 ((s.take 24).drop 6) ≠ 0 →
        bUint32 ((s.take 24).drop 8) ≤ (s.drop 24).length →
        bUint16 ((s.take 24).drop 6) = 4 → legalKey rKey = false →
        parseResponse rKey s
          = (.error .malformedKey, (s.drop 24).drop (bUint32 ((s.take 24).drop 8)))) ∧
    (∀ (rKey s : List Nat), 24 ≤ s.length → s.headI = 0x81 →
        bUint16 ((s.take 24).drop 6) ≠ 0 →
        bUint32 ((s.take 24).drop 8) ≤ (s.drop 24).length →
        ¬(bUint16 ((s.take 24).drop 6) = 4 ∧ legalKey rKey = false) →
        parseResponse rKey s
          = (.error (asError (bUint16 ((s.take 24).drop 6))),
             (s.drop 24).drop (bUint32 ((s.take 24).drop 8)))) := by
  refine ⟨?_, ?_, ?_⟩
  · intro rKey s hlen hmagic
    unfold parseResponse
    rw [if_neg (by omega), if_pos (by rw [headI_take24]; simpa [respMagic] using hmagic)]
  · intro rKey s hlen hmagic hstatus hdrain h4 hkey
    unfold parseResponse
    rw [if_neg (by omega), if_neg (by rw [headI_take24]; simp [respMagic, hmagic]),
      if_pos hstatus, if_neg (by omega), if_pos ⟨h4, hkey⟩]
  · intro rKey s hlen hmagic hstatus hdrain hnot
    unfold parseResponse
    rw [if_neg (by omega), if_neg (by rw [headI_take24]; simp [respMagic, hmagic]),
      if_pos hstatus, if_neg (by omega), if_neg hnot]

/-- Witness for C3: a zeroed 24-byte header triggers BadMagic; a status-4
(InvalidArgs) response for the illegal key [32] maps to MalformedKey; a
status-1 (KeyNotFound) response maps to the CacheMiss error — each with
an empty body, so draining consumes zero bytes and leaves the stream
empty. -/
theorem parseResponse_error_mapping_witness :
    parseResponse [] (List.replicate 24 0) = (.error .badMagic, []) ∧
    parseResponse [32] (0x81 :: 0 :: 0 :: 0 :: 0 :: 0 :: 0 :: 4 :: List.replicate 16 0)
      = (.error .malformedKey, []) ∧
    parseResponse [] (0x81 :: 0 :: 0 :: 0 :: 0 :: 0 :: 0 :: 1 :: List.replicate 16 0)
      = (.error .cacheMiss, []) := by
  refine ⟨?_, ?_, ?_⟩
  · have h := parseResponse_error_mapping.1 [] (List.replicate 24 0) (by decide) (by decide)
    rw [h]
    decide
  · have h := parseResponse_error_mapping.2.1 [32]
      (0x81 :: 0 :: 0 :: 0 :: 0 :: 0 :: 0 :: 4 :: List.replicate 16 0)
      (by decide) (by decide) (by decide) (by decide) (by decide) (by decide)
    rw [h]
    decide
  · have h := parseResponse_error_mapping.2.2 []
      (0x81 :: 0 :: 0 :: 0 :: 0 :: 0 :: 0 :: 1 :: List.replicate 16 0)
      (by decide) (by decide) (by decide) (by decide) (by decide)
    rw [h]
    decide

/-- C4: for every key, opcode, value, cas and extras whose lengths fit
their header fields, the encoded request frame is a 24-byte big-endian
header — byte 0 = 0x80, byte 1 = opcode, bytes 2-3 = key length, byte 4 =
extras length, byte 5 = 0, bytes 6-7 = 0, bytes 8-11 = len(extras) +
len(key) + len(value), bytes 12-15 = 0, bytes 16-23 = cas — followed by
the extras, then the key, then the value. -/
theorem sendConnCommand_layout (key : List Nat) (cmd : Nat) (value : List Nat)
    (casid : Nat) (extras : List Nat)
    (hcmd : cmd < 256) (hk : key.length < 2 ^ 16) (he : extras.length < 2 ^ 8)
    (htot : key.length + extras.length + value.length < 2 ^ 32)
    (hcas : casid < 2 ^ 64) :
    (sendConnCommand key cmd value casid extras).length
        = 24 + extras.length + key.length + value.length ∧
    (sendConnCommand key cmd value casid extras).take 2 = [0x80, cmd] ∧
    bUint16 ((sendConnCommand key cmd value casid extras).drop 2) = key.length ∧
    ((sendConnCommand key cmd value casid extras).drop 4).take 4
        = [extras.length, 0, 0, 0] ∧
    bUint32 ((sendConnCommand key cmd value casid extras).drop 8)
        = extras.length + key.length + value.length ∧
    ((sendConnCommand key cmd value casid extras).drop 12).take 4 = [0, 0, 0, 0] ∧
    bUint64 ((sendConnCommand key cmd value casid extras).drop 16) = casid ∧
    (sendConnCommand key cmd value casid extras).drop 24 = extras ++ key ++ value := by
  refine ⟨?_, ?_, ?_, ?_, ?_, ?_, ?_, ?_⟩
  · simp [sendConnCommand, reqHeader, beBytes_length]
    omega
  · show ([0x80, cmd % 256] : List Nat) = [0x80, cmd]
    rw [Nat.mod_eq_of_lt hcmd]
  · show bUint16 (beBytes 2 key.length ++ _) = key.length
    exact bUint16_beBytes _ _ hk
  · show ([extras.length % 256, 0, 0, 0] : List Nat) = [extras.length, 0, 0, 0]
    rw [Nat.mod_eq_of_lt (show extras.length < 256 by omega)]
  · have h5 : bUint32 ((sendConnCommand key cmd value casid extras).drop 8)
        = key.length + extras.length + value.length := by
      show bUint32 (beBytes 4 (key.length + extras.length + value.length) ++ _)
          = key.length + extras.length + value.length
      exact bUint32_beBytes _ _ htot
    omega
  · rfl
  · show bUint64 (beBytes 8 casid ++ _) = casid
    exact bUint64_beBytes _ _ hcas
  · rfl

/-- Witness for C4: the frame for key "a", opcode Set (1), value
[100, 101], cas 515 and extras [9, 8, 7, 6] carries key length 1 in bytes
2-3, extras length 4 in byte 4, total body length 7 in bytes 8-11 and cas
515 in bytes 16-23. -/
theorem sendConnCommand_layout_witness :
    bUint16 ((sendConnCommand [97] 1 [100, 101] 515 [9, 8, 7, 6]).drop 2) = 1 ∧
    ((sendConnCommand [97] 1 [100, 101] 515 [9, 8, 7, 6]).drop 4).take 4 = [4, 0, 0, 0] ∧
    bUint32 ((sendConnCommand [97] 1 [100, 101] 515 [9, 8, 7, 6]).drop 8) = 7 ∧
    bUint64 ((sendConnCommand [97] 1 [100, 101] 515 [9, 8, 7, 6]).drop 16) = 515 := by
  have h := sendConnCommand_layout [97] 1 [100, 101] 515 [9, 8, 7, 6]
    (by decide) (by decide) (by decide) (by decide) (by decide)
  exact ⟨h.2.2.1, h.2.2.2.1, h.2.2.2.2.1, h.2.2.2.2.2.2.1⟩

/-- A request header with its magic byte replaced by the response magic
0x81 — the only way `parseResponse` will accept a frame produced by
`sendConnCommand`. -/
def respHeaderOf (key : List Nat) (cmd : Nat) (value : List Nat) (casid : Nat)
    (extras : List Nat) : List Nat :=
  respMagic :: (reqHeader key cmd value casid extras).tail

theorem respHeaderOf_length (key : List Nat) (cmd : Nat) (value : List Nat)
    (casid : Nat) (extras : List Nat) :
    (respHeaderOf key cmd value casid extras).length = 24 := by
  simp [respHeaderOf, List.length_tail, reqHeader_length]

theorem flip_decomp (key : List Nat) (cmd : Nat) (value : List Nat) (casid : Nat)
    (extras : List Nat) :
    respMagic :: (sendConnCommand key cmd value casid extras).tail
      = respHeaderOf key cmd value casid extras ++ (extras ++ (key ++ value)) := by
  have h : respMagic :: (sendConnCommand key cmd value casid extras).tail
      = ((respHeaderOf key cmd value casid extras ++ extras) ++ key) ++ value := rfl
  rw [h, List.append_assoc, List.append_assoc]

theorem parse_flipped (key : List Nat) (cmd : Nat) (value : List Nat) (casid : Nat)
    (extras : List Nat) (hk : key.length < 2 ^ 16) (he : extras.length < 2 ^ 8)
    (htot : key.length + extras.length + value.length < 2 ^ 32) :
    parseResponse key
        (respHeaderOf key cmd value casid extras ++ (extras ++ (key ++ value)))
      = (.ok ⟨respHeaderOf key cmd value casid extras, key, extras, value⟩, []) := by
  have hA := respHeaderOf_length key cmd value casid extras
  simp only [parseResponse]
  rw [List.take_left' hA, List.drop_left' hA]
  have hgd : (respHeaderOf key cmd value casid extras).getD 4 0 = extras.length := by
    rw [show (respHeaderOf key cmd value casid extras).getD 4 0 = extras.length % 256 from rfl,
      Nat.mod_eq_of_lt (show extras.length < 256 by omega)]
  have hkl : bUint16 ((respHeaderOf key cmd value casid extras).drop 2) = key.length := by
    show bUint16 (beBytes 2 key.length ++ _) = key.length
    exact bUint16_beBytes _ _ hk
  have htt : bUint32 ((respHeaderOf key cmd value casid extras).drop 8)
      = key.length + extras.length + value.length := by
    show bUint32 (beBytes 4 (key.length + extras.length + value.length) ++ _)
        = key.length + extras.length + value.length
    exact bUint32_beBytes _ _ htot
  have hst : bUint16 ((respHeaderOf key cmd value casid extras).drop 6) = 0 := rfl
  rw [hgd, hkl, htt, hst]
  rw [if_neg (by simp [hA]), if_neg (by intro hne; exact hne rfl),
    if_neg (by intro hne; exact hne rfl)]
  rw [if_neg (by simp)]
  rw [List.take_left, List.drop_left]
  rw [if_neg (by simp)]
  rw [List.take_left, List.drop_left]
  rw [show key.length + extras.length + value.length - extras.length - key.length
      = value.length by omega]
  rw [if_neg (by omega)]
  rw [List.take_length, List.drop_length]

/-- C9 counterexample: decoding the encoding of a concrete request (key
"a", opcode Get, no value, no extras, cas 0) fails with BadMagic, because
the encoder emits the request magic 0x80 while the decoder accepts only
the response magic 0x81 — so re-encoding the decoded form cannot
reproduce the original encoding. -/
theorem frame_round_trip_counterexample :
    decodeThenEncode [97] (sendConnCommand [97] 0 [] 0 [])
      ≠ .ok (sendConnCommand [97] 0 [] 0 []) := by
  decide

/-- C9 (amended): for every request whose key, extras, total body and cas
fit their header field widths, decoding the encoded frame after replacing
its magic byte with the response magic 0x81 succeeds, and re-encoding the
decoded opcode, key, extras, value and cas reproduces the original
encoding byte for byte. -/
theorem frame_round_trip_with_response_magic (key : List Nat) (cmd : Nat)
    (value : List Nat) (casid : Nat) (extras : List Nat)
    (hcmd : cmd < 256) (hk : key.length < 2 ^ 16) (he : extras.length < 2 ^ 8)
    (htot : key.length + extras.length + value.length < 2 ^ 32)
    (hcas : casid < 2 ^ 64) :
    decodeThenEncode key (respMagic :: (sendConnCommand key cmd value casid extras).tail)
      = .ok (sendConnCommand key cmd value casid extras) := by
  rw [show decodeThenEncode key
        (respMagic :: (sendConnCommand key cmd value casid extras).tail)
      = decodeThenEncode key
        (respHeaderOf key cmd value casid extras ++ (extras ++ (key ++ value)))
    from by rw [flip_decomp]]
  unfold decodeThenEncode
  rw [parse_flipped key cmd value casid extras hk he htot]
  have h1 : (respHeaderOf key cmd value casid extras).getD 1 0 = cmd := by
    rw [show (respHeaderOf key cmd value casid extras).getD 1 0 = cmd % 256 from rfl,
      Nat.mod_eq_of_lt hcmd]
  have h64 : bUint64 ((respHeaderOf key cmd value casid extras).drop 16) = casid := by
    show bUint64 (beBytes 8 casid) = casid
    have := bUint64_beBytes casid [] hcas
    simpa using this
  simp only [h1, h64]

/-- Witness for C9 (amended) at a concrete request: key "a", opcode Get,
value [100], cas 7, extras [1, 2]. -/
theorem frame_round_trip_with_response_magic_witness :
    decodeThenEncode [97] (respMagic :: (sendConnCommand [97] 0 [100] 7 [1, 2]).tail)
      = .ok (sendConnCommand [97] 0 [100] 7 [1, 2]) :=
  frame_round_trip_with_response_magic [97] 0 [100] 7 [1, 2]
    (by decide) (by decide) (by decide) (by decide) (by decide)

end Memcache
